import Mathlib

set_option maxHeartbeats 1000000
set_option maxRecDepth 8000

/-!
Verification of the Light-Box-UV instrument core (`src/test2.py`,
class `InstrumentUI`): the 8×12 brightness matrix, the session
state machine (`_turn_on` / `_turn_off`), per-edit and per-tick
time accounting (`_on_button_click` / `_timer_tick`), the
time-weighted averaging engine (`_calculate_average`) and the
serial wire encoding (`send_matrix`).

Timestamps (Python `time.time()` floats) are modelled as rationals;
brightness values (Python ints) as integers; the accumulators
(Python floats) as rationals.  Output effects (serial transmission,
session-log persistence) are modelled as an explicit event list.
-/

/-- Errors surfaced at the UI/core boundary.  The brightness input
dialog in `_on_button_click` enforces the range 0..100, so an
out-of-range request is rejected before any state change. -/
inductive Err where
  | outOfRange
  deriving DecidableEq

/-- Observable output effects of the core: a serial transmission of a
wire frame (`send_matrix`), or an attempt to persist the session log
(`save_session_data`), which may succeed or fail. -/
inductive Event where
  | send (msg : String)
  | persist (ok : Bool)
  deriving DecidableEq

/-- The mutable state of `InstrumentUI` that the session/averaging
core reads and writes (8 rows, 12 columns). -/
structure State where
  instrument_on : Bool
  start_time : Option ℚ
  start_datetime : Option ℚ
  brightness_values : Fin 8 → Fin 12 → ℤ
  brightness_time_sum : Fin 8 → Fin 12 → ℚ
  last_update_time : Fin 8 → Fin 12 → Option ℚ

/-- The state just after `InstrumentUI.__init__`: instrument off, no
session timestamps, all-zero matrix, zero accumulators, no
per-cell accounting timestamps. -/
def initialState : State :=
  { instrument_on := false
    start_time := none
    start_datetime := none
    brightness_values := fun _ _ => 0
    brightness_time_sum := fun _ _ => 0
    last_update_time := fun _ _ => none }

/-- Pointwise update of one cell of a grid. -/
def updCell {α : Type} (f : Fin 8 → Fin 12 → α) (r : Fin 8) (c : Fin 12) (v : α) :
    Fin 8 → Fin 12 → α :=
  fun r' c' => if r' = r ∧ c' = c then v else f r' c'

/-- The `parts` list built by `send_matrix`: decimal renderings of the
brightness values, outer loop over columns 0..11, inner loop over
rows 0..7 (column-major). -/
def matrixParts (m : Fin 8 → Fin 12 → ℤ) : List String :=
  (List.finRange 12).flatMap (fun col => (List.finRange 8).map (fun row => toString (m row col)))

/-- The wire frame built by `send_matrix`:
`"<" + ",".join(parts) + ">"`. -/
def transmission (m : Fin 8 → Fin 12 → ℤ) : String :=
  "<" ++ String.intercalate "," (matrixParts m) ++ ">"

/-- `_on_button_click` after the user confirmed a brightness value.
The Qt input dialog bounds the value to 0..100 (out-of-range input is
rejected with no state change and no transmission).  While ON, the
elapsed interval at the old brightness is accumulated before the new
value and accounting timestamp are stored, and the full matrix is
retransmitted; while OFF only the brightness cell is staged. -/
def on_button_click (s : State) (row : Fin 8) (col : Fin 12) (value : ℤ) (now : ℚ) :
    Except Err (State × List Event) :=
  if value < 0 ∨ 100 < value then
    Except.error Err.outOfRange
  else if s.instrument_on then
    let old_val := s.brightness_values row col
    let sum1 :=
      match s.last_update_time row col with
      | some lut =>
          if 0 < now - lut then s.brightness_time_sum row col + (old_val : ℚ) * (now - lut)
          else s.brightness_time_sum row col
      | none => s.brightness_time_sum row col
    let s1 : State :=
      { s with
        brightness_time_sum := updCell s.brightness_time_sum row col sum1
        last_update_time := updCell s.last_update_time row col (some now)
        brightness_values := updCell s.brightness_values row col value }
    Except.ok (s1, [Event.send (transmission s1.brightness_values)])
  else
    Except.ok ({ s with brightness_values := updCell s.brightness_values row col value }, [])

/-- The state/event outcome of a button click as the surrounding UI
sees it: a rejected value leaves the state untouched and emits
nothing. -/
def clickStep (s : State) (row : Fin 8) (col : Fin 12) (value : ℤ) (now : ℚ) :
    State × List Event :=
  match on_button_click s row col value now with
  | Except.ok p => p
  | Except.error _ => (s, [])

/-- `_turn_on`: record session start timestamps, reset every cell's
accumulator to 0 and its accounting timestamp to now, then transmit
the current (possibly pre-staged) matrix.  Brightness values are
unchanged. -/
def turn_on (s : State) (now : ℚ) : State × List Event :=
  let s1 : State :=
    { s with
      instrument_on := true
      start_time := some now
      start_datetime := some now
      brightness_time_sum := fun _ _ => 0
      last_update_time := fun _ _ => some now }
  (s1, [Event.send (transmission s1.brightness_values)])

/-- The intermediate state inside `_turn_off` at which
`save_session_data` runs: the final open interval of every cell has
been accumulated (accounting timestamps left as-is), and the
brightness matrix has been zeroed; session flags and timestamps are
not yet cleared. -/
def turn_off_save_point (s : State) (now : ℚ) : State :=
  { s with
    brightness_time_sum := fun r c =>
      match s.last_update_time r c with
      | some lut =>
          if 0 < now - lut then
            s.brightness_time_sum r c + (s.brightness_values r c : ℚ) * (now - lut)
          else s.brightness_time_sum r c
      | none => s.brightness_time_sum r c
    brightness_values := fun _ _ => 0 }

/-- `_turn_off`: a no-op while already OFF; otherwise accumulate the
final interval of every cell, zero the matrix, transmit the all-zero
frame, attempt persistence (`saveOk` records whether the save
collaborator succeeded; a failure is caught and swallowed), then
clear the session flags, the start timestamps and every cell's
accounting timestamp. -/
def turn_off (s : State) (now : ℚ) (saveOk : Bool) : State × List Event :=
  if s.instrument_on then
    let s2 := turn_off_save_point s now
    let s3 : State :=
      { s2 with
        instrument_on := false
        start_time := none
        start_datetime := none
        last_update_time := fun _ _ => none }
    (s3, [Event.send (transmission s2.brightness_values), Event.persist saveOk])
  else
    (s, [])

/-- `_timer_tick`: no state change unless the instrument is ON with a
start time; otherwise every cell with a positive elapsed interval
accumulates brightness × elapsed and advances its accounting
timestamp to now. -/
def timer_tick (s : State) (now : ℚ) : State :=
  if s.instrument_on = false ∨ s.start_time = none then s
  else
    { s with
      brightness_time_sum := fun r c =>
        match s.last_update_time r c with
        | some lut =>
            if 0 < now - lut then
              s.brightness_time_sum r c + (s.brightness_values r c : ℚ) * (now - lut)
            else s.brightness_time_sum r c
        | none => s.brightness_time_sum r c
      last_update_time := fun r c =>
        match s.last_update_time r c with
        | some lut => if 0 < now - lut then some now else some lut
        | none => none }

/-- `_calculate_average`: 0.0 when no session has ever started; the
current brightness when the session span is degenerate; otherwise the
accumulated weight plus the open-interval contribution, divided by
the session span. -/
def calculate_average (s : State) (r : Fin 8) (c : Fin 12) (now : ℚ) : ℚ :=
  if s.start_time = none ∧ s.instrument_on = false then 0
  else
    let total_time : ℚ := match s.start_time with | some st => now - st | none => 0
    if total_time ≤ 0 then (s.brightness_values r c : ℚ)
    else
      let accumulated := s.brightness_time_sum r c
      let current : ℚ := (s.brightness_values r c : ℚ)
      let part : ℚ :=
        match s.last_update_time r c with
        | some lut => (now - lut) * current
        | none => 0
      (accumulated + part) / total_time

/-- A core-mutating operation performed at some instant while the
session runs: a confirmed brightness edit on one cell, or one firing
of the 1-second timer. -/
inductive Op where
  | edit (r : Fin 8) (c : Fin 12) (v : ℤ)
  | tick

/-- Apply one timed operation to the state (outputs discarded). -/
def applyOp (s : State) (t : ℚ) : Op → State
  | Op.edit r c v => (clickStep s r c v t).1
  | Op.tick => timer_tick s t

/-- Run a timed operation sequence from a state. -/
def execRun : State → List (ℚ × Op) → State
  | s, [] => s
  | s, (t, op) :: rest => execRun (applyOp s t op) rest

/-- Effect of an operation on the brightness matrix alone: an edit
overwrites one cell, a tick changes nothing. -/
def opBright (b : Fin 8 → Fin 12 → ℤ) : Op → Fin 8 → Fin 12 → ℤ
  | Op.edit r c v => updCell b r c v
  | Op.tick => b

/-- Modelled from the spec: the exact time integral of a cell's
brightness from `tcur` to `tEnd`, where the brightness starts as
`b` and is piecewise constant, changing only at the listed timed
operations ("the true time integral of brightness"). -/
def trueIntegral (b : Fin 8 → Fin 12 → ℤ) (tcur : ℚ) :
    List (ℚ × Op) → ℚ → Fin 8 → Fin 12 → ℚ
  | [], tEnd, r, c => (b r c : ℚ) * (tEnd - tcur)
  | (t, op) :: rest, tEnd, r, c =>
      (b r c : ℚ) * (t - tcur) + trueIntegral (opBright b op) t rest tEnd r c

/-- The timed operations are chronological: each timestamp is at
least `t`, each at most its successor, and the last at most `tEnd`. -/
def chronoTo (t : ℚ) : List (ℚ × Op) → ℚ → Bool
  | [], tEnd => decide (t ≤ tEnd)
  | (t1, _) :: rest, tEnd => decide (t ≤ t1) && chronoTo t1 rest tEnd

/-- Every edit in the list carries an in-range brightness value (as
the input dialog guarantees). -/
def validOps : List (ℚ × Op) → Bool
  | [] => true
  | (_, Op.edit _ _ v) :: rest => decide (0 ≤ v ∧ v ≤ 100) && validOps rest
  | (_, Op.tick) :: rest => validOps rest

/-- The weighted sum `_calculate_average` would use at instant `now`:
the closed accumulator plus the open-interval contribution of the
current brightness. -/
def numerator (s : State) (now : ℚ) (r : Fin 8) (c : Fin 12) : ℚ :=
  s.brightness_time_sum r c +
    match s.last_update_time r c with
    | some lut => (now - lut) * (s.brightness_values r c : ℚ)
    | none => 0

/-- Session-running invariant: instrument on, session started at
`t0`, and every cell's accounting timestamp set and at most `tcur`. -/
def SessionInv (s : State) (t0 tcur : ℚ) : Prop :=
  s.instrument_on = true ∧ s.start_time = some t0 ∧
    ∀ r c, ∃ lut, s.last_update_time r c = some lut ∧ lut ≤ tcur

/-- One edit or tick at instant `t ≥ tcur` keeps the session
invariant, changes the brightness matrix as `opBright` says, and
advances every cell's weighted sum by exactly the old brightness
times the elapsed span. -/
theorem step_invariant (s : State) (t0 tcur t : ℚ) (op : Op)
    (hinv : SessionInv s t0 tcur) (ht : tcur ≤ t)
    (hv : ∀ r1 c1 v, op = Op.edit r1 c1 v → 0 ≤ v ∧ v ≤ 100) :
    (applyOp s t op).brightness_values = opBright s.brightness_values op ∧
    SessionInv (applyOp s t op) t0 t ∧
    ∀ r c, numerator (applyOp s t op) t r c
      = numerator s tcur r c + (t - tcur) * (s.brightness_values r c : ℚ) := by
  obtain ⟨hon, hst, hlut⟩ := hinv
  cases op with
  | tick =>
    have hguard : ¬ (s.instrument_on = false ∨ s.start_time = none) := by
      simp [hon, hst]
    simp only [applyOp, timer_tick, if_neg hguard]
    refine ⟨rfl, ⟨hon, hst, ?_⟩, ?_⟩
    · intro r c
      obtain ⟨lut, hl, hle⟩ := hlut r c
      simp only [hl]
      by_cases hpos : 0 < t - lut
      · exact ⟨t, by simp [hpos], le_refl t⟩
      · exact ⟨lut, by simp [hpos], le_trans hle ht⟩
    · intro r c
      obtain ⟨lut, hl, hle⟩ := hlut r c
      simp only [numerator, hl]
      by_cases hpos : 0 < t - lut
      · simp only [if_pos hpos]
        ring
      · simp only [if_neg hpos]
        ring
  | edit r0 c0 v =>
    obtain ⟨hv1, hv2⟩ := hv r0 c0 v rfl
    have hguard1 : ¬ (v < 0 ∨ 100 < v) := by omega
    obtain ⟨lut0, hl0, hle0⟩ := hlut r0 c0
    simp only [applyOp, clickStep, on_button_click, if_neg hguard1, hon, if_true]
    refine ⟨rfl, ⟨rfl, hst, ?_⟩, ?_⟩
    · intro r c
      by_cases h : r = r0 ∧ c = c0
      · exact ⟨t, by simp [updCell, h], le_refl t⟩
      · obtain ⟨lut, hl, hle⟩ := hlut r c
        exact ⟨lut, by simp [updCell, h, hl], le_trans hle ht⟩
    · intro r c
      by_cases h : r = r0 ∧ c = c0
      · obtain ⟨hr, hcc⟩ := h
        subst hr; subst hcc
        by_cases hpos : 0 < t - lut0
        · simp [numerator, updCell, hl0, hpos]
          ring
        · have h1 : lut0 = t := le_antisymm (hle0.trans ht) (by linarith [not_lt.mp hpos])
          subst h1
          have h2 : tcur = lut0 := le_antisymm ht hle0
          subst h2
          simp [numerator, updCell, hl0]
      · obtain ⟨lut, hl, hle⟩ := hlut r c
        simp only [numerator, updCell, if_neg h, hl]
        ring

/-- Running any chronological sequence of in-range edits and ticks
keeps the session invariant, and the weighted sum observed at `tEnd`
grows by exactly the true time integral of the (piecewise-constant)
brightness over the run. -/
theorem run_invariant (ops : List (ℚ × Op)) :
    ∀ (s : State) (t0 tcur tEnd : ℚ),
      SessionInv s t0 tcur → chronoTo tcur ops tEnd = true → validOps ops = true →
      SessionInv (execRun s ops) t0 tEnd ∧
      ∀ r c, numerator (execRun s ops) tEnd r c
        = numerator s tcur r c + trueIntegral s.brightness_values tcur ops tEnd r c := by
  induction ops with
  | nil =>
    intro s t0 tcur tEnd hinv hc _
    have htle : tcur ≤ tEnd := by simpa [chronoTo] using hc
    obtain ⟨hon, hst, hlut⟩ := hinv
    refine ⟨⟨hon, hst, ?_⟩, ?_⟩
    · intro r c
      obtain ⟨lut, hl, hle⟩ := hlut r c
      exact ⟨lut, hl, hle.trans htle⟩
    · intro r c
      obtain ⟨lut, hl, _⟩ := hlut r c
      simp only [execRun, numerator, trueIntegral, hl]
      ring
  | cons hd rest ih =>
    obtain ⟨t, op⟩ := hd
    intro s t0 tcur tEnd hinv hc hval
    have hc' : tcur ≤ t ∧ chronoTo t rest tEnd = true := by
      simpa [chronoTo] using hc
    have hv1 : ∀ r1 c1 v, op = Op.edit r1 c1 v → 0 ≤ v ∧ v ≤ 100 := by
      intro r1 c1 v heq
      subst heq
      simp [validOps] at hval
      exact hval.1
    have hval' : validOps rest = true := by
      cases op with
      | edit r c v =>
        simp [validOps] at hval
        exact hval.2
      | tick => simpa [validOps] using hval
    obtain ⟨hb, hinv', hnum⟩ := step_invariant s t0 tcur t op hinv hc'.1 hv1
    obtain ⟨hinvF, hnumF⟩ := ih (applyOp s t op) t0 t tEnd hinv' hc'.2 hval'
    refine ⟨by simpa [execRun] using hinvF, ?_⟩
    intro r c
    have hF := hnumF r c
    simp only [execRun]
    rw [hF, hnum r c, hb]
    simp only [trueIntegral]
    ring

/-- C1: while a session is active, for every cell and every
chronological interleaving of in-range edits and ticks after
TurnOn, the weighted sum `_calculate_average` uses equals the exact
time integral of the cell's brightness since the session start — the
open interval at the current brightness counted exactly once — so
the reported average is the true time integral divided by
`now − startedAt`, and the final accumulation pass of TurnOff stores
exactly that integral. -/
theorem C1_session_average_is_true_integral
    (s0 : State) (t0 now : ℚ) (ops : List (ℚ × Op)) (r : Fin 8) (c : Fin 12)
    (hc : chronoTo t0 ops now = true) (hv : validOps ops = true) (hpos : 0 < now - t0) :
    calculate_average (execRun (turn_on s0 t0).1 ops) r c now
      = trueIntegral s0.brightness_values t0 ops now r c / (now - t0)
    ∧ (turn_off_save_point (execRun (turn_on s0 t0).1 ops) now).brightness_time_sum r c
      = trueIntegral s0.brightness_values t0 ops now r c := by
  have hinv0 : SessionInv (turn_on s0 t0).1 t0 t0 := by
    refine ⟨rfl, rfl, ?_⟩
    intro r c
    exact ⟨t0, rfl, le_refl t0⟩
  obtain ⟨hinvF, hnumF⟩ := run_invariant ops (turn_on s0 t0).1 t0 t0 now hinv0 hc hv
  have hb : (turn_on s0 t0).1.brightness_values = s0.brightness_values := rfl
  have hnum0 : numerator (turn_on s0 t0).1 t0 r c = 0 := by
    simp [numerator, turn_on]
  have hkey : numerator (execRun (turn_on s0 t0).1 ops) now r c
      = trueIntegral s0.brightness_values t0 ops now r c := by
    have h1 := hnumF r c
    rw [hnum0, hb] at h1
    simpa using h1
  obtain ⟨honF, hstF, hlutF⟩ := hinvF
  obtain ⟨lutF, hlF, hleF⟩ := hlutF r c
  constructor
  · have hne : ¬ (now - t0 ≤ 0) := not_le.mpr hpos
    rw [← hkey]
    simp [calculate_average, hstF, honF, hlF, hne, numerator]
  · rw [← hkey]
    by_cases hpos2 : 0 < now - lutF
    · have hlt : lutF < now := by linarith
      simp [turn_off_save_point, hlF, hpos2, hlt, numerator]
      ring
    · have hEq : lutF = now := le_antisymm hleF (by linarith [not_lt.mp hpos2])
      subst hEq
      simp [turn_off_save_point, hlF, numerator]

/-- Witness for C1: TurnOn at t=0 on the all-zero matrix, edit cell
(0,0) to 50 at t=1, tick at t=2, read at t=3; the average equals the
true integral, which is 0·1 + 50·1 + 50·1 = 100. -/
theorem C1_session_average_is_true_integral_witness :
    calculate_average
        (execRun (turn_on initialState 0).1 [(1, Op.edit 0 0 50), (2, Op.tick)]) 0 0 3
      = trueIntegral initialState.brightness_values 0
          [(1, Op.edit 0 0 50), (2, Op.tick)] 3 0 0 / (3 - 0)
    ∧ trueIntegral initialState.brightness_values 0
        [(1, Op.edit 0 0 50), (2, Op.tick)] 3 0 0 = 100 :=
  ⟨(C1_session_average_is_true_integral initialState 0 3 [(1, Op.edit 0 0 50), (2, Op.tick)]
      0 0 (by decide) (by decide) (by norm_num)).1,
   by norm_num [trueIntegral, opBright, updCell, initialState]⟩

/-- C2: `send_matrix` renders 96 decimal values: the parts list has
length 96, the entry at position 8·c + r is the decimal rendering of
cell (r,c) (column-major: outer loop over columns 0..11, inner over
rows 0..7), the frame is '<' + the comma-join + '>', and the
all-zero matrix encodes to '<' + 95 copies of "0," + "0" + '>'. -/
theorem C2_wire_encoding (m : Fin 8 → Fin 12 → ℤ) :
    (matrixParts m).length = 96
    ∧ (∀ (c : Fin 12) (r : Fin 8),
        (matrixParts m)[8 * (c : ℕ) + (r : ℕ)]? = some (toString (m r c)))
    ∧ transmission m = "<" ++ String.intercalate "," (matrixParts m) ++ ">"
    ∧ transmission (fun _ _ => 0) = "<" ++ String.join (List.replicate 95 "0,") ++ "0" ++ ">" := by
  refine ⟨rfl, ?_, rfl, ?_⟩
  · intro c r
    fin_cases c <;> fin_cases r <;> rfl
  · rfl

/-- C3: `_calculate_average` returns 0 when no session has ever
started (OFF with no start time), the current brightness as a
rational when the session span `now − startedAt` is ≤ 0, and
otherwise the accumulated weight plus the open-interval contribution
`brightness × (now − lastAccountedAt)` (0 when the accounting
timestamp is unset), divided by the span. -/
theorem C3_average_cases (s : State) (r : Fin 8) (c : Fin 12) (now : ℚ) :
    (s.start_time = none → s.instrument_on = false → calculate_average s r c now = 0)
    ∧ (∀ st, s.start_time = some st → now - st ≤ 0 →
        calculate_average s r c now = (s.brightness_values r c : ℚ))
    ∧ (∀ st, s.start_time = some st → 0 < now - st →
        calculate_average s r c now =
          (s.brightness_time_sum r c +
            (match s.last_update_time r c with
             | some lut => (s.brightness_values r c : ℚ) * (now - lut)
             | none => 0)) / (now - st)) := by
  refine ⟨?_, ?_, ?_⟩
  · intro h1 h2
    simp [calculate_average, h1, h2]
  · intro st h1 h2
    simp [calculate_average, h1, h2]
  · intro st h1 h2
    have hne : ¬ (now - st ≤ 0) := not_le.mpr h2
    rcases hcase : s.last_update_time r c with _ | lut <;>
      simp [calculate_average, h1, hne, hcase] <;> ring

/-- Witness for C3: the initial state never had a session, so the
average reads 0. -/
theorem C3_average_cases_witness : calculate_average initialState 0 0 5 = 0 :=
  (C3_average_cases initialState 0 0 5).1 rfl rfl

/-- A state with cell (0,0) staged to brightness 30 while OFF,
as `_on_button_click` leaves it before any session. -/
def staged30 : State := (clickStep initialState 0 0 30 0).1

/-- Counterexample to C4 as stated: TurnOn at t=0 on a matrix whose
cell (0,0) holds 30, TurnOff at the same instant; the average the
closing save computes for that cell is 0, not 30, because `_turn_off`
zeroes the brightness matrix before `save_session_data` runs and the
degenerate branch returns the (already zeroed) current brightness. -/
theorem C4_average_at_close_counterexample :
    calculate_average (turn_off_save_point (turn_on staged30 0).1 0) 0 0 0 ≠ 30 := by
  norm_num [calculate_average, turn_off_save_point, turn_on]

/-- C4 amended: TurnOn immediately followed by TurnOff at the same
instant takes the degenerate branch (no division), which returns the
cell's current brightness — already zeroed at the save point — so the
average computed at close is 0, whatever brightness (e.g. 30) the
cell held. -/
theorem C4_average_at_close_amended (s : State) (t : ℚ) (r : Fin 8) (c : Fin 12)
    (h30 : s.brightness_values r c = 30) :
    calculate_average (turn_off_save_point (turn_on s t).1 t) r c t
      = ((turn_off_save_point (turn_on s t).1 t).brightness_values r c : ℚ)
    ∧ calculate_average (turn_off_save_point (turn_on s t).1 t) r c t = 0 := by
  constructor
  · simp [calculate_average, turn_off_save_point, turn_on]
  · simp [calculate_average, turn_off_save_point, turn_on]

/-- Witness for C4's amended statement at the staged state. -/
theorem C4_average_at_close_amended_witness :
    staged30.brightness_values 0 0 = 30
    ∧ calculate_average (turn_off_save_point (turn_on staged30 0).1 0) 0 0 0 = 0 :=
  ⟨by decide, (C4_average_at_close_amended staged30 0 0 0 (by decide)).2⟩

/-- C5: `_turn_on` records both start timestamps as now, resets
every cell's accumulator to 0 and its accounting timestamp to now,
leaves every brightness value unchanged, and immediately transmits
the current (possibly pre-staged) matrix. -/
theorem C5_turn_on_effects (s : State) (now : ℚ) :
    (turn_on s now).1.instrument_on = true
    ∧ (turn_on s now).1.start_time = some now
    ∧ (turn_on s now).1.start_datetime = some now
    ∧ (∀ r c, (turn_on s now).1.brightness_time_sum r c = 0)
    ∧ (∀ r c, (turn_on s now).1.last_update_time r c = some now)
    ∧ (∀ r c, (turn_on s now).1.brightness_values r c = s.brightness_values r c)
    ∧ (turn_on s now).2 = [Event.send (transmission s.brightness_values)] :=
  ⟨rfl, rfl, rfl, fun _ _ => rfl, fun _ _ => rfl, fun _ _ => rfl, rfl⟩

/-- C6: `_turn_off` from ON transmits the all-zero frame strictly
before attempting persistence, and completes the OFF transition the
same way whether or not the save succeeds: matrix zeroed, session
inactive, start timestamps cleared, accounting timestamps unset. -/
theorem C6_turn_off_completes (s : State) (now : ℚ) (saveOk : Bool)
    (h : s.instrument_on = true) :
    (turn_off s now saveOk).2
      = [Event.send (transmission (fun _ _ => 0)), Event.persist saveOk]
    ∧ (turn_off s now true).1 = (turn_off s now false).1
    ∧ (∀ r c, (turn_off s now saveOk).1.brightness_values r c = 0)
    ∧ (turn_off s now saveOk).1.instrument_on = false
    ∧ (turn_off s now saveOk).1.start_time = none
    ∧ (turn_off s now saveOk).1.start_datetime = none
    ∧ (∀ r c, (turn_off s now saveOk).1.last_update_time r c = none) := by
  refine ⟨?_, ?_, ?_, ?_, ?_, ?_, ?_⟩ <;> simp [turn_off, turn_off_save_point, h]

/-- Witness for C6 at a freshly started session. -/
theorem C6_turn_off_completes_witness :
    (turn_off (turn_on initialState 0).1 5 false).2
      = [Event.send (transmission (fun _ _ => 0)), Event.persist false]
    ∧ (turn_off (turn_on initialState 0).1 5 true).1
      = (turn_off (turn_on initialState 0).1 5 false).1
    ∧ (∀ r c, (turn_off (turn_on initialState 0).1 5 false).1.brightness_values r c = 0)
    ∧ (turn_off (turn_on initialState 0).1 5 false).1.instrument_on = false
    ∧ (turn_off (turn_on initialState 0).1 5 false).1.start_time = none
    ∧ (turn_off (turn_on initialState 0).1 5 false).1.start_datetime = none
    ∧ (∀ r c, (turn_off (turn_on initialState 0).1 5 false).1.last_update_time r c = none) :=
  C6_turn_off_completes (turn_on initialState 0).1 5 false rfl

/-- C7: a confirmed in-range edit while OFF changes exactly the one
brightness cell: every accumulator and accounting timestamp is
untouched, every other cell keeps its brightness, and no
transmission is emitted. -/
theorem C7_edit_while_off (s : State) (row : Fin 8) (col : Fin 12) (v : ℤ) (now : ℚ)
    (hoff : s.instrument_on = false) (hv1 : 0 ≤ v) (hv2 : v ≤ 100) :
    clickStep s row col v now
      = ({ s with brightness_values := updCell s.brightness_values row col v }, [])
    ∧ (clickStep s row col v now).1.brightness_time_sum = s.brightness_time_sum
    ∧ (clickStep s row col v now).1.last_update_time = s.last_update_time
    ∧ (clickStep s row col v now).2 = []
    ∧ (clickStep s row col v now).1.brightness_values row col = v
    ∧ ∀ r' c', ¬(r' = row ∧ c' = col) →
        (clickStep s row col v now).1.brightness_values r' c' = s.brightness_values r' c' := by
  have hguard : ¬ (v < 0 ∨ 100 < v) := by omega
  refine ⟨?_, ?_, ?_, ?_, ?_, ?_⟩
  · simp [clickStep, on_button_click, hguard, hoff]
  · simp [clickStep, on_button_click, hguard, hoff]
  · simp [clickStep, on_button_click, hguard, hoff]
  · simp [clickStep, on_button_click, hguard, hoff]
  · simp [clickStep, on_button_click, hguard, hoff, updCell]
  · intro r' c' h
    simp [clickStep, on_button_click, hguard, hoff, updCell, h]

/-- Witness for C7: staging brightness 42 at cell (0,0) while OFF. -/
theorem C7_edit_while_off_witness :
    clickStep initialState 0 0 42 7
      = ({ initialState with brightness_values := updCell initialState.brightness_values 0 0 42 }, [])
    ∧ (clickStep initialState 0 0 42 7).1.brightness_time_sum = initialState.brightness_time_sum
    ∧ (clickStep initialState 0 0 42 7).1.last_update_time = initialState.last_update_time
    ∧ (clickStep initialState 0 0 42 7).2 = []
    ∧ (clickStep initialState 0 0 42 7).1.brightness_values 0 0 = 42
    ∧ ∀ r' c', ¬(r' = (0 : Fin 8) ∧ c' = (0 : Fin 12)) →
        (clickStep initialState 0 0 42 7).1.brightness_values r' c'
          = initialState.brightness_values r' c' :=
  C7_edit_while_off initialState 0 0 42 7 rfl (by decide) (by decide)

/-- C8: a brightness request outside [0,100] is rejected with the
out-of-range error: the state (matrix included) is unchanged and no
transmission occurs. -/
theorem C8_out_of_range_rejected (s : State) (row : Fin 8) (col : Fin 12) (v : ℤ) (now : ℚ)
    (hv : v < 0 ∨ 100 < v) :
    on_button_click s row col v now = Except.error Err.outOfRange
    ∧ clickStep s row col v now = (s, []) := by
  constructor
  · simp [on_button_click, hv]
  · simp [clickStep, on_button_click, hv]

/-- Witness for C8 at value 150. -/
theorem C8_out_of_range_rejected_witness :
    on_button_click initialState 0 0 150 0 = Except.error Err.outOfRange
    ∧ clickStep initialState 0 0 150 0 = (initialState, []) :=
  C8_out_of_range_rejected initialState 0 0 150 0 (by decide)

/-- C9: `_turn_off` while already OFF returns immediately — no state
change and no transmission — and stays a no-op when repeated. -/
theorem C9_turn_off_noop_while_off (s : State) (now now2 : ℚ) (ok1 ok2 : Bool)
    (h : s.instrument_on = false) :
    turn_off s now ok1 = (s, [])
    ∧ turn_off (turn_off s now ok1).1 now2 ok2 = (s, []) := by
  have h1 : turn_off s now ok1 = (s, []) := by simp [turn_off, h]
  refine ⟨h1, ?_⟩
  rw [h1]
  simp [turn_off, h]

/-- Witness for C9 at the initial (OFF) state. -/
theorem C9_turn_off_noop_while_off_witness :
    turn_off initialState 0 false = (initialState, [])
    ∧ turn_off (turn_off initialState 0 false).1 1 true = (initialState, []) :=
  C9_turn_off_noop_while_off initialState 0 1 false true rfl

/-- C10: once `_turn_off` has completed (instrument off, start time
cleared), `_calculate_average` reads 0 for every cell at every later
instant: a closed session's averages are no longer observable
through the read path. -/
theorem C10_average_zero_after_close (s : State) (now tAfter : ℚ) (saveOk : Bool)
    (r : Fin 8) (c : Fin 12) (h : s.instrument_on = true) :
    calculate_average (turn_off s now saveOk).1 r c tAfter = 0 := by
  simp [turn_off, calculate_average, h]

/-- Witness for C10: close a fresh session and read any cell later. -/
theorem C10_average_zero_after_close_witness :
    calculate_average (turn_off (turn_on staged30 0).1 4 true).1 0 0 9 = 0 :=
  C10_average_zero_after_close (turn_on staged30 0).1 4 9 true 0 0 rfl
